import Mathlib

/-!
Verification of the safegrid telemetry/rate/liveness pipeline.

Shallow embedding of the repository's core:
  - raspberry/estadisticas.py (counter sampling, QoS arbitration, message-volume
    accumulators);
  - raspberry/safegrid-dashboard/stats_writer.py (CPU percentage, per-class rates);
  - raspberry/safegrid-dashboard/raspberry/safegrid-dashboard/ingest_tomas.py
    (MQTT ingestion, reserved-identifier filtering, schema migration);
  - raspberry/safegrid-dashboard/snapshot_db.py (snapshot building, TTL liveness).

Python floats are modelled as rationals, Python ints as Lean integers, SQLite
NULLable columns as Option fields.  Strings are handled through explicit
character-list operations so that every definition evaluates inside the kernel.
-/

/-- Python str.lower restricted to the ASCII case mapping used by the
identifiers of this repository. -/
def pyLower (s : String) : String := ⟨s.data.map Char.toLower⟩

/-- Python str.strip: drop leading and trailing whitespace. -/
def pyStrip (s : String) : String :=
  ⟨((s.data.dropWhile Char.isWhitespace).reverse.dropWhile Char.isWhitespace).reverse⟩

/-- Helper for splitSlash: accumulate characters until a slash. -/
def splitSlashAux : List Char → List Char → List String
  | [], acc => [⟨acc.reverse⟩]
  | ch :: rest, acc =>
      if ch = '/' then ⟨acc.reverse⟩ :: splitSlashAux rest []
      else splitSlashAux rest (ch :: acc)

/-- Python topic.split of a slash-separated MQTT topic. -/
def splitSlash (s : String) : List String := splitSlashAux s.data []

/-- SQLite CREATE INDEX IF NOT EXISTS on a store modelled as a list of index
names: append the name when absent, leave the list alone when present. -/
def addIdx (n : String) (l : List String) : List String :=
  if n ∈ l then l else l ++ [n]

/-- Insertion step of the insertion sort used to model the ORDER BY clauses. -/
def insertBy {α : Type} (le : α → α → Bool) (x : α) : List α → List α
  | [] => [x]
  | y :: ys => if le x y then x :: y :: ys else y :: insertBy le x ys

/-- Insertion sort modelling the SQL ORDER BY and the Python sorted builtin. -/
def sortBy {α : Type} (le : α → α → Bool) : List α → List α
  | [] => []
  | x :: xs => insertBy le x (sortBy le xs)

namespace Estadisticas

/-- Sampling interval of estadisticas.py, INTERVAL = 1.0 second. -/
def INTERVAL : ℚ := 1

/-- rate_mbps of estadisticas.py main: per-class tc rate; None when either
endpoint is missing or when the counter decreased. -/
def rate_mbps (cur prev : Option ℤ) : Option ℚ :=
  match cur, prev with
  | some c, some p =>
      let d := c - p
      if d < 0 then none
      else some ((d : ℚ) * 8 / (INTERVAL * 1000000))
  | _, _ => none

/-- CPU percentage computation of estadisticas.py main: from the total-tick and
idle-tick deltas of two successive readings of /proc/stat. -/
def cpuPctEst (dtTotal dtIdle : ℤ) : ℚ :=
  if dtTotal ≤ 0 then 0 else 100 * (1 - (dtIdle : ℚ) / (dtTotal : ℚ))

/-- Conversion of a per-window byte count into Mbps, as estadisticas.py does for
the message-volume accumulators: bytes * 8 / (INTERVAL * 1_000_000). -/
def mbpsOfBytes (b : ℕ) : ℚ := (b : ℚ) * 8 / (INTERVAL * 1000000)

/-- One per-tick bandwidth split: the values published in payload_net. -/
structure QosSplit where
  hi : ℚ
  med : ℚ
  low : ℚ
  qos_src : String
deriving DecidableEq

/-- Source selection of estadisticas.py main: if any tc-derived class rate is
non-None the shaper is authoritative (missing classes default to 0.0 and a
missing low class absorbs the clamped remainder), otherwise the message-volume
rates are used with the low class as the clamped remainder. -/
def selectQos (hi_tc med_tc low_tc : Option ℚ)
    (alert_mbps telem_mbps total_mbps : ℚ) : QosSplit :=
  let use_tc := hi_tc.isSome || med_tc.isSome || low_tc.isSome
  if use_tc then
    let hi := hi_tc.getD 0
    let med := med_tc.getD 0
    let low :=
      match low_tc with
      | some v => v
      | none => max (total_mbps - hi - med) 0
    ⟨hi, med, low, "tc"⟩
  else
    ⟨alert_mbps, telem_mbps, max (total_mbps - alert_mbps - telem_mbps) 0, "mqtt"⟩

/-- The latest_toma1 shared state of estadisticas.py: last payload per kind and
the per-window byte accumulators incremented on message arrival. -/
structure LatestToma1 where
  telemetry : Option String
  alert : Option String
  status : Option String
  ts : Option ℚ
  bytes_telem : ℕ
  bytes_alert : ℕ
  bytes_status : ℕ
deriving DecidableEq

/-- The three subscribed toma1 topics. -/
inductive MsgKind
  | telem
  | alert
  | status
deriving DecidableEq

/-- The _on_message callback of estadisticas.py: store the payload for its kind,
add the raw byte count to that kind's accumulator and stamp ts. -/
def onMessage (st : LatestToma1) (k : MsgKind) (payload : String) (nbytes : ℕ)
    (now : ℚ) : LatestToma1 :=
  match k with
  | .telem =>
      { st with telemetry := some payload, bytes_telem := st.bytes_telem + nbytes,
                ts := some now }
  | .alert =>
      { st with alert := some payload, bytes_alert := st.bytes_alert + nbytes,
                ts := some now }
  | .status =>
      { st with status := some (pyStrip payload),
                bytes_status := st.bytes_status + nbytes, ts := some now }

/-- The per-tick read-and-reset of estadisticas.py main: read bytes_telem and
bytes_alert for this window and zero exactly those two accumulators. -/
def tickReadReset (st : LatestToma1) : (ℕ × ℕ) × LatestToma1 :=
  ((st.bytes_telem, st.bytes_alert),
   { st with bytes_telem := 0, bytes_alert := 0 })

end Estadisticas

namespace StatsWriter

/-- The interval guard of stats_writer.net_mbps: dt = max(0.2, now - last_t). -/
def calcDt (now last_t : ℚ) : ℚ := max (2 / 10) (now - last_t)

/-- calc of stats_writer.net_mbps (calc is a Lean keyword, hence the name):
clamp the byte delta at zero and convert to Mbps over the guarded interval. -/
def calcClass (cur prev : ℤ) (dt : ℚ) : ℚ :=
  let dbytes : ℤ := max 0 (cur - prev)
  ((dbytes : ℚ) * 8 / dt) / 1000000

/-- cpu_pct of stats_writer.py: first call records the reading and returns 0.0;
later calls form the tick deltas, return 0.0 on a non-positive total delta and
otherwise clamp (busy delta / total delta) * 100 into [0, 100].  Returns the
percentage and the new remembered reading. -/
def cpu_pct_step (prev_cpu : Option (ℤ × ℤ)) (total idle : ℤ) :
    ℚ × (ℤ × ℤ) :=
  match prev_cpu with
  | none => (0, (total, idle))
  | some (pt, pidle) =>
      let dt := total - pt
      let di := idle - pidle
      if dt ≤ 0 then (0, (total, idle))
      else (max 0 (min 100 (((dt - di : ℤ) : ℚ) / (dt : ℚ) * 100)), (total, idle))

end StatsWriter

namespace Ingest

/-- One JSON field value as ingest_tomas.py sees it after json.loads.  The
string constructors record how Python coercion treats the text: fstrInt for an
integer literal (int() and float() both succeed), fstrFloat for a non-integer
numeric literal (only float() succeeds), fstrBad for text neither accepts. -/
inductive FVal
  | fint (n : ℤ)
  | fnum (q : ℚ)
  | fbool (b : Bool)
  | fstrInt (n : ℤ)
  | fstrFloat (q : ℚ)
  | fstrBad (s : String)
  | fnull
  | fmissing
deriving DecidableEq

/-- Python int() truncates toward zero. -/
def pyTrunc (q : ℚ) : ℤ := if q < 0 then -⌊-q⌋ else ⌊q⌋

/-- safe_float of ingest_tomas.py: float(x), None on None or on failure. -/
def safe_float : FVal → Option ℚ
  | .fint n => some (n : ℚ)
  | .fnum q => some q
  | .fbool b => some (if b then 1 else 0)
  | .fstrInt n => some (n : ℚ)
  | .fstrFloat q => some q
  | .fstrBad _ => none
  | .fnull => none
  | .fmissing => none

/-- safe_int of ingest_tomas.py: int(x), None on None or on failure. -/
def safe_int : FVal → Option ℤ
  | .fint n => some n
  | .fnum q => some (pyTrunc q)
  | .fbool b => some (if b then 1 else 0)
  | .fstrInt n => some n
  | .fstrFloat _ => none
  | .fstrBad _ => none
  | .fnull => none
  | .fmissing => none

/-- A parsed telemetry/alert payload dict: the keys ingest_tomas.py reads.
Identifier-like and text-like keys are modelled as optional strings, numeric
keys as FVal (fmissing for an absent key). -/
structure Doc where
  toma : Option String
  id : Option String
  seq : FVal
  ms : FVal
  sim : FVal
  on_field : FVal
  is_on : FVal
  amperaje : FVal
  potencia_w : FVal
  rssi : FVal
  estado : Option String
  reason : Option String
deriving DecidableEq

/-- Outcome of json.loads on a message payload: the parse raised, the parse
produced a non-dict value, or a dict. -/
inductive Parsed
  | malformed
  | nonDict
  | dict (doc : Doc)
deriving DecidableEq

/-- topic_to_id of ingest_tomas.py: the second segment of a topic of at least
three segments whose first segment is the safegrid namespace. -/
def topic_to_id (topic : String) : Option String :=
  match splitSlash topic with
  | p0 :: p1 :: _ :: _ => if p0 = "safegrid" then some p1 else none
  | _ => none

/-- The reserved system identifiers of ingest_tomas.py. -/
def RESERVED_IDS : List String := ["pi", "ap", "display", "dashboard"]

/-- Second disjunct of the Python expression doc.get("toma") or doc.get("id")
or toma: fall back from the id field to the topic id on a falsy value. -/
def pickId2 (doc : Doc) (topic_id : String) : String :=
  match doc.id with
  | some s => if s ≠ "" then s else topic_id
  | none => topic_id

/-- The Python expression doc.get("toma") or doc.get("id") or toma: the first
truthy candidate wins, the payload fields before the topic segment. -/
def pickId (doc : Doc) (topic_id : String) : String :=
  match doc.toma with
  | some s => if s ≠ "" then s else pickId2 doc topic_id
  | none => pickId2 doc topic_id

/-- One row of the toma_samples table as insert_telem writes it. -/
structure TomaSample where
  ts : ℤ
  toma : String
  seq : Option ℤ
  ms : Option ℤ
  sim : Option ℤ
  is_on : Option ℤ
  amperaje : Option ℚ
  potencia_w : Option ℚ
  estado : Option String
  rssi : Option ℤ
deriving DecidableEq

/-- One row of the alert_samples table as insert_alert writes it. -/
structure AlertSample where
  ts : ℤ
  toma : String
  seq : Option ℤ
  ms : Option ℤ
  sim : Option ℤ
  is_on : Option ℤ
  amperaje : Option ℚ
  potencia_w : Option ℚ
  estado : Option String
  rssi : Option ℤ
  reason : Option String
deriving DecidableEq

/-- The is_on column value: 1 if doc.get("on") is True else 0 if it is False
else safe_int(doc.get("is_on")). -/
def is_on_val (doc : Doc) : Option ℤ :=
  match doc.on_field with
  | FVal.fbool true => some 1
  | FVal.fbool false => some 0
  | _ => safe_int doc.is_on

/-- The row insert_telem builds and appends to toma_samples. -/
def mkTelemRow (ts : ℤ) (toma : String) (doc : Doc) : TomaSample :=
  { ts := ts, toma := toma, seq := safe_int doc.seq, ms := safe_int doc.ms,
    sim := safe_int doc.sim, is_on := is_on_val doc,
    amperaje := safe_float doc.amperaje, potencia_w := safe_float doc.potencia_w,
    estado := doc.estado, rssi := safe_int doc.rssi }

/-- The row insert_alert builds and appends to alert_samples. -/
def mkAlertRow (ts : ℤ) (toma : String) (doc : Doc) : AlertSample :=
  { ts := ts, toma := toma, seq := safe_int doc.seq, ms := safe_int doc.ms,
    sim := safe_int doc.sim, is_on := is_on_val doc,
    amperaje := safe_float doc.amperaje, potencia_w := safe_float doc.potencia_w,
    estado := doc.estado, rssi := safe_int doc.rssi, reason := doc.reason }

/-- on_telem of ingest_tomas.py: drop messages with no usable topic id, with a
reserved topic id, with an unparseable or non-dict payload, or whose normalized
identifier (payload toma or id field over the topic segment, stripped and
lowercased) is reserved; otherwise produce the row that is inserted.  Every
failure path returns none: the callback swallows exceptions. -/
def processTelem (topic : String) (p : Parsed) (ts : ℤ) : Option TomaSample :=
  let toma := (topic_to_id topic).getD ""
  if toma = "" then none
  else if pyLower toma ∈ RESERVED_IDS then none
  else
    match p with
    | .malformed => none
    | .nonDict => none
    | .dict doc =>
        let toma_norm := pyLower (pyStrip (pickId doc toma))
        if toma_norm ∈ RESERVED_IDS then none
        else some (mkTelemRow ts toma_norm doc)

/-- on_alert of ingest_tomas.py: as on_telem but with no early reserved check
on the topic segment; the normalized identifier is still checked. -/
def processAlert (topic : String) (p : Parsed) (ts : ℤ) : Option AlertSample :=
  let toma := (topic_to_id topic).getD ""
  if toma = "" then none
  else
    match p with
    | .malformed => none
    | .nonDict => none
    | .dict doc =>
        let toma_norm := pyLower (pyStrip (pickId doc toma))
        if toma_norm ∈ RESERVED_IDS then none
        else some (mkAlertRow ts toma_norm doc)

/-- A document with every key absent, for concrete instantiations. -/
def emptyDoc : Doc :=
  { toma := none, id := none, seq := .fmissing, ms := .fmissing, sim := .fmissing,
    on_field := .fmissing, is_on := .fmissing, amperaje := .fmissing,
    potencia_w := .fmissing, rssi := .fmissing, estado := none, reason := none }

/-- A payload whose toma field names toma1 and whose amperaje field holds text
that float() rejects. -/
def badAmpDoc : Doc := { emptyDoc with toma := some "toma1", amperaje := .fstrBad "abc" }

/-- One cell of a stored row for the schema-migration model. -/
inductive Val
  | intv (n : ℤ)
  | realv (q : ℚ)
  | textv (s : String)
  | null
deriving DecidableEq

/-- One SQLite table for the schema-migration model: its columns (name and
declared type, in order) and its rows (one cell per column, in order). -/
structure Tbl where
  cols : List (String × String)
  rows : List (List Val)
deriving DecidableEq

/-- The column names of a table, as PRAGMA table_info lists them. -/
def colNames (t : Tbl) : List String := t.cols.map Prod.fst

/-- The columns of the CREATE TABLE IF NOT EXISTS toma_samples statement. -/
def tomaCreateCols : List (String × String) :=
  [("ts", "INTEGER"), ("toma", "TEXT"), ("seq", "INTEGER"), ("ms", "INTEGER"),
   ("sim", "INTEGER"), ("is_on", "INTEGER"), ("amperaje", "REAL"),
   ("potencia_w", "REAL"), ("estado", "TEXT"), ("rssi", "INTEGER")]

/-- The columns of the CREATE TABLE IF NOT EXISTS alert_samples statement. -/
def alertCreateCols : List (String × String) := tomaCreateCols ++ [("reason", "TEXT")]

/-- The need_toma dict of ensure_schema: columns added when missing. -/
def needToma : List (String × String) :=
  [("seq", "INTEGER"), ("ms", "INTEGER"), ("sim", "INTEGER"), ("is_on", "INTEGER"),
   ("amperaje", "REAL"), ("potencia_w", "REAL"), ("estado", "TEXT"),
   ("rssi", "INTEGER")]

/-- The need_alert dict of ensure_schema: need_toma plus the reason column. -/
def needAlert : List (String × String) := needToma ++ [("reason", "TEXT")]

/-- ALTER TABLE ADD COLUMN: the column is appended and every stored row gains a
NULL cell; nothing else changes. -/
def addColumn (t : Tbl) (c : String × String) : Tbl :=
  { cols := t.cols ++ [c], rows := t.rows.map (fun r => r ++ [Val.null]) }

/-- The migration loop of ensure_schema: the column names are read once and
every needed column absent from that snapshot is added, in order. -/
def addMissingCols (t : Tbl) (need : List (String × String)) : Tbl :=
  (need.filter (fun c => c.1 ∉ colNames t)).foldl addColumn t

/-- The writer-side store: the two tables ingest_tomas.py touches and the
index names present. -/
structure Store where
  toma_samples : Option Tbl
  alert_samples : Option Tbl
  indexes : List String
deriving DecidableEq

/-- CREATE TABLE IF NOT EXISTS toma_samples. -/
def createTomaIfAbsent (s : Store) : Store :=
  match s.toma_samples with
  | some _ => s
  | none => { s with toma_samples := some { cols := tomaCreateCols, rows := [] } }

/-- CREATE TABLE IF NOT EXISTS alert_samples. -/
def createAlertIfAbsent (s : Store) : Store :=
  match s.alert_samples with
  | some _ => s
  | none => { s with alert_samples := some { cols := alertCreateCols, rows := [] } }

/-- ensure_schema of ingest_tomas.py: create the two tables when absent, add
any needed columns missing from each, and create the two indexes when absent. -/
def ensure_schema (s : Store) : Store :=
  let s1 := createTomaIfAbsent s
  let s2 := createAlertIfAbsent s1
  let s3 := { s2 with toma_samples := s2.toma_samples.map (fun t => addMissingCols t needToma) }
  let s4 := { s3 with alert_samples := s3.alert_samples.map (fun t => addMissingCols t needAlert) }
  { s4 with indexes := addIdx "idx_alert_ts" (addIdx "idx_toma_ts" s4.indexes) }

end Ingest

namespace SnapDB

/-- One row of toma_samples as snapshot_db.py declares and reads it. -/
structure TomaRow where
  ts : ℤ
  toma : String
  seq : Option ℤ
  is_on : Option ℤ
  amperaje : Option ℚ
  potencia_w : Option ℚ
  estado : Option String
  rssi : Option ℤ
deriving DecidableEq

/-- One row of alert_samples as snapshot_db.py declares it. -/
structure AlertRow where
  ts : ℤ
  toma : Option String
  seq : Option ℤ
  reason : Option String
  potencia_w : Option ℚ
  rssi : Option ℤ
  raw_json : Option String
deriving DecidableEq

/-- One row of pi_samples as snapshot_db.py declares it. -/
structure PiRow where
  ts : ℤ
  cpu_pct : Option ℚ
  ram_used_gb : Option ℚ
  ram_total_gb : Option ℚ
  temp_c : Option ℚ
  uptime_s : Option ℤ
deriving DecidableEq

/-- One row of net_samples as snapshot_db.py declares it. -/
structure NetRow where
  ts : ℤ
  hi_mbps : Option ℚ
  med_mbps : Option ℚ
  low_mbps : Option ℚ
  cap_mbps : Option ℚ
  qos_src : Option String
deriving DecidableEq

/-- The reader-side store: the four tables of snapshot_db.py (none for a table
that does not exist yet) and the index names present. -/
structure Store where
  toma_samples : Option (List TomaRow)
  alert_samples : Option (List AlertRow)
  pi_samples : Option (List PiRow)
  net_samples : Option (List NetRow)
  indexes : List String
deriving DecidableEq

/-- A store file freshly created by connecting: no tables, no indexes. -/
def emptyStore : Store :=
  { toma_samples := none, alert_samples := none, pi_samples := none,
    net_samples := none, indexes := [] }

/-- ensure_schema of snapshot_db.py: create each of the four tables when absent
and each of the five indexes when absent, in statement order. -/
def ensure_schema (s : Store) : Store :=
  let s1 := { s with toma_samples := some (s.toma_samples.getD []),
                     indexes := addIdx "idx_toma_ts" s.indexes }
  let s2 := { s1 with alert_samples := some (s1.alert_samples.getD []),
                      indexes := addIdx "idx_alert_toma_ts" (addIdx "idx_alert_ts" s1.indexes) }
  let s3 := { s2 with pi_samples := some (s2.pi_samples.getD []),
                      indexes := addIdx "idx_pi_ts" s2.indexes }
  { s3 with net_samples := some (s3.net_samples.getD []),
            indexes := addIdx "idx_net_ts" s3.indexes }

/-- A store on which ensure_schema has nothing left to do: all four tables and
all five indexes exist. -/
def provisioned (s : Store) : Prop :=
  s.toma_samples.isSome = true ∧ s.alert_samples.isSome = true ∧
  s.pi_samples.isSome = true ∧ s.net_samples.isSome = true ∧
  "idx_toma_ts" ∈ s.indexes ∧ "idx_alert_ts" ∈ s.indexes ∧
  "idx_alert_toma_ts" ∈ s.indexes ∧ "idx_pi_ts" ∈ s.indexes ∧
  "idx_net_ts" ∈ s.indexes

/-- SELECT DISTINCT toma followed by the Python filter on truthy names and
sorted(): the distinct nonempty toma identifiers in ascending order. -/
def toma_names (rows : List TomaRow) : List String :=
  sortBy (fun a b => decide (a < b) || a == b)
    (((rows.map (fun r => r.toma)).dedup).filter (fun n => n ≠ ""))

/-- SELECT * FROM toma_samples WHERE toma=? ORDER BY ts DESC LIMIT 1: a row of
that toma carrying its maximal timestamp, none when the toma has no row. -/
def latestRow (rows : List TomaRow) (tn : String) : Option TomaRow :=
  match rows with
  | [] => none
  | r :: rest =>
      match latestRow rest tn with
      | none => if r.toma = tn then some r else none
      | some b => if r.toma = tn then (if b.ts < r.ts then some r else some b) else some b

/-- One entry of the derived tomas_by_ttl map of build_snapshot. -/
structure Liveness where
  ts : ℤ
  age_sec : ℤ
  online : Bool
  amperaje : Option ℚ
  potencia_w : Option ℚ
  estado : Option String
  rssi : Option ℤ
deriving DecidableEq

/-- The derived liveness entry build_snapshot computes from a latest row: age
is now - ts for a truthy (nonzero) ts and the 10^9 sentinel otherwise, and
online holds exactly when age is within the TTL. -/
def mkLiveness (now ttl : ℤ) (r : TomaRow) : Liveness :=
  let ts := r.ts
  let age : ℤ := if ts ≠ 0 then now - ts else 10 ^ 9
  { ts := ts, age_sec := age, online := decide (age ≤ ttl),
    amperaje := r.amperaje, potencia_w := r.potencia_w,
    estado := r.estado, rssi := r.rssi }

/-- The tomas_by_ttl association list over the distinct nonempty toma names. -/
def tomas_by_ttl_of (rows : List TomaRow) (now ttl : ℤ) : List (String × Liveness) :=
  (toma_names rows).filterMap
    (fun tn => (latestRow rows tn).map (fun r => (tn, mkLiveness now ttl r)))

/-- Descending-timestamp comparator for the ORDER BY ts DESC queries. -/
def tsDescToma (a b : TomaRow) : Bool := decide (b.ts ≤ a.ts)

/-- Descending-timestamp comparator for pi_samples. -/
def tsDescPi (a b : PiRow) : Bool := decide (b.ts ≤ a.ts)

/-- Descending-timestamp comparator for net_samples. -/
def tsDescNet (a b : NetRow) : Bool := decide (b.ts ≤ a.ts)

/-- The snapshot dict build_snapshot returns.  An Option field models a dict
key present only when the store file exists; the alerts fields are present in
both cases, count 0 and empty series for a missing store. -/
structure Snapshot where
  now_ts : ℤ
  ttl_sec : ℤ
  pi_latest : Option (List PiRow)
  net_latest : Option (List NetRow)
  net_series : Option (List NetRow)
  toma_latest_per_toma : Option (List (String × TomaRow))
  toma_series_per_toma : Option (List (String × List TomaRow))
  tomas_by_ttl : Option (List (String × Liveness))
  alerts_count_120s : ℕ
  alerts_series : List (ℤ × ℕ)
deriving DecidableEq

/-- build_snapshot of snapshot_db.py.  The store argument is none when the
database file does not exist, in which case the early-return snapshot is paired
with an unchanged missing store; otherwise ensure_schema runs first (the store
side effect) and every view is computed from the ensured store at the single
reference time now. -/
def build_snapshot (store : Option Store) (max_rows_per_table toma_points : ℕ)
    (ttl_sec now : ℤ) : Snapshot × Option Store :=
  match store with
  | none =>
      ({ now_ts := now, ttl_sec := ttl_sec, pi_latest := none, net_latest := none,
         net_series := none, toma_latest_per_toma := none,
         toma_series_per_toma := none, tomas_by_ttl := none,
         alerts_count_120s := 0, alerts_series := [] }, none)
  | some s0 =>
      let s := ensure_schema s0
      let tomaRows := s.toma_samples.getD []
      let alertRows := s.alert_samples.getD []
      let piRows := s.pi_samples.getD []
      let netRows := s.net_samples.getD []
      let names := toma_names tomaRows
      let latest_map := names.filterMap
        (fun tn => (latestRow tomaRows tn).map (fun r => (tn, r)))
      let series_per_toma := names.map (fun tn =>
        (tn, ((sortBy tsDescToma (tomaRows.filter (fun r => r.toma = tn))).take
                toma_points).reverse))
      let by_ttl := latest_map.map (fun p => (p.1, mkLiveness now ttl_sec p.2))
      let recent := alertRows.filter (fun r => now - 120 ≤ r.ts)
      let tss := sortBy (fun a b => decide (a ≤ b)) ((recent.map (fun r => r.ts)).dedup)
      ({ now_ts := now, ttl_sec := ttl_sec,
         pi_latest := some ((sortBy tsDescPi piRows).take 1),
         net_latest := some ((sortBy tsDescNet netRows).take 1),
         net_series := some (((sortBy tsDescNet netRows).take max_rows_per_table).reverse),
         toma_latest_per_toma := some latest_map,
         toma_series_per_toma := some series_per_toma,
         tomas_by_ttl := some by_ttl,
         alerts_count_120s := recent.length,
         alerts_series := tss.map (fun t => (t, (recent.filter (fun r => r.ts = t)).length)) },
       some s)

end SnapDB

theorem insertBy_perm {α : Type} (le : α → α → Bool) (x : α) (l : List α) :
    (insertBy le x l).Perm (x :: l) := by
  induction l with
  | nil => simp [insertBy]
  | cons y ys ih =>
      by_cases h : le x y
      · simp [insertBy, h]
      · simp only [insertBy, h, if_neg]
        exact (ih.cons y).trans (List.Perm.swap x y ys)

theorem sortBy_perm {α : Type} (le : α → α → Bool) (l : List α) :
    (sortBy le l).Perm l := by
  induction l with
  | nil => simp [sortBy]
  | cons x xs ih => exact (insertBy_perm le x (sortBy le xs)).trans (ih.cons x)

theorem mem_sortBy {α : Type} (le : α → α → Bool) (l : List α) (a : α) :
    a ∈ sortBy le l ↔ a ∈ l :=
  (sortBy_perm le l).mem_iff

theorem nodup_sortBy {α : Type} (le : α → α → Bool) (l : List α) (h : l.Nodup) :
    (sortBy le l).Nodup :=
  (sortBy_perm le l).nodup_iff.mpr h

/-- C2 counterexample: rate_mbps of estadisticas.py returns None, not 0.0, when
the current counter value 5 is strictly below the previous value 10. -/
theorem C2_cex :
    Estadisticas.rate_mbps (some 5) (some 10) = none ∧
    ¬ Estadisticas.rate_mbps (some 5) (some 10) = some 0 := by
  constructor
  · decide
  · decide

/-- C2 (amended): on a counter decrease, calc of stats_writer.py returns
exactly 0.0 while rate_mbps of estadisticas.py returns None (the class counts
as unmeasured for the tick); neither ever produces a negative rate. -/
theorem C2_rate_amended :
    (∀ cur prev : ℤ, ∀ now last_t : ℚ, cur < prev →
        StatsWriter.calcClass cur prev (StatsWriter.calcDt now last_t) = 0) ∧
    (∀ cur prev : ℤ, ∀ now last_t : ℚ,
        0 ≤ StatsWriter.calcClass cur prev (StatsWriter.calcDt now last_t)) ∧
    (∀ c p : ℤ, c < p → Estadisticas.rate_mbps (some c) (some p) = none) ∧
    (∀ cur prev : Option ℤ, ∀ q : ℚ, Estadisticas.rate_mbps cur prev = some q → 0 ≤ q) := by
  refine ⟨?_, ?_, ?_, ?_⟩
  · intro cur prev now last_t h
    have hmax : max (0 : ℤ) (cur - prev) = 0 := max_eq_left (by omega)
    simp [StatsWriter.calcClass, hmax]
  · intro cur prev now last_t
    have hdt : (0 : ℚ) < StatsWriter.calcDt now last_t :=
      lt_of_lt_of_le (by norm_num) (le_max_left _ _)
    have hnum : (0 : ℚ) ≤ ((max 0 (cur - prev) : ℤ) : ℚ) := by
      exact_mod_cast le_max_left 0 (cur - prev)
    simp only [StatsWriter.calcClass]
    exact div_nonneg (div_nonneg (mul_nonneg hnum (by norm_num)) hdt.le) (by norm_num)
  · intro c p h
    have h2 : c - p < 0 := by omega
    simp [Estadisticas.rate_mbps, h2]
  · intro cur prev q h
    match cur, prev with
    | none, _ => simp [Estadisticas.rate_mbps] at h
    | some c, none => simp [Estadisticas.rate_mbps] at h
    | some c, some p =>
        simp only [Estadisticas.rate_mbps] at h
        split_ifs at h with hd
        rw [← Option.some.inj h]
        have hcp : (0 : ℤ) ≤ c - p := by omega
        have hge : (0 : ℚ) ≤ ((c - p : ℤ) : ℚ) := by exact_mod_cast hcp
        exact div_nonneg (mul_nonneg hge (by norm_num)) (by norm_num [Estadisticas.INTERVAL])

/-- C2 witness: the amended statement at concrete inputs. -/
theorem C2_rate_amended_witness :
    StatsWriter.calcClass 3 7 (StatsWriter.calcDt 1 0) = 0 ∧
    0 ≤ StatsWriter.calcClass 9 2 (StatsWriter.calcDt 1 0) ∧
    Estadisticas.rate_mbps (some 3) (some 7) = none ∧
    0 ≤ (2 : ℚ) :=
  ⟨C2_rate_amended.1 3 7 1 0 (by norm_num),
   C2_rate_amended.2.1 9 2 1 0,
   C2_rate_amended.2.2.1 3 7 (by norm_num),
   C2_rate_amended.2.2.2 (some 250000) (some 0) 2 (by
      norm_num [Estadisticas.rate_mbps, Estadisticas.INTERVAL])⟩

/-- C3: the per-tick arbitration of estadisticas.py.  Any non-None tc class
rate makes the shaper authoritative (missing classes 0.0, a missing low class
absorbs the clamped remainder); otherwise the message-volume source is
authoritative with alert bytes as the high class and telemetry bytes as the
medium class, and 125000 alert bytes plus 250000 telemetry bytes over the
1-second window yield hi = 1.0 Mbps and med = 2.0 Mbps. -/
theorem C3_qos_arbitration :
    (∀ hi_tc med_tc low_tc : Option ℚ, ∀ alert_mbps telem_mbps total_mbps : ℚ,
        hi_tc.isSome = true ∨ med_tc.isSome = true ∨ low_tc.isSome = true →
          (Estadisticas.selectQos hi_tc med_tc low_tc alert_mbps telem_mbps total_mbps).qos_src = "tc" ∧
          (Estadisticas.selectQos hi_tc med_tc low_tc alert_mbps telem_mbps total_mbps).hi = hi_tc.getD 0 ∧
          (Estadisticas.selectQos hi_tc med_tc low_tc alert_mbps telem_mbps total_mbps).med = med_tc.getD 0 ∧
          (low_tc = none →
            (Estadisticas.selectQos hi_tc med_tc low_tc alert_mbps telem_mbps total_mbps).low =
              max (total_mbps - hi_tc.getD 0 - med_tc.getD 0) 0) ∧
          (∀ v : ℚ, low_tc = some v →
            (Estadisticas.selectQos hi_tc med_tc low_tc alert_mbps telem_mbps total_mbps).low = v)) ∧
    (∀ alert_mbps telem_mbps total_mbps : ℚ,
        Estadisticas.selectQos none none none alert_mbps telem_mbps total_mbps =
          ⟨alert_mbps, telem_mbps, max (total_mbps - alert_mbps - telem_mbps) 0, "mqtt"⟩) ∧
    (∀ total_mbps : ℚ,
        (Estadisticas.selectQos none none none (Estadisticas.mbpsOfBytes 125000)
            (Estadisticas.mbpsOfBytes 250000) total_mbps).hi = 1 ∧
        (Estadisticas.selectQos none none none (Estadisticas.mbpsOfBytes 125000)
            (Estadisticas.mbpsOfBytes 250000) total_mbps).med = 2 ∧
        (Estadisticas.selectQos none none none (Estadisticas.mbpsOfBytes 125000)
            (Estadisticas.mbpsOfBytes 250000) total_mbps).qos_src = "mqtt") := by
  refine ⟨?_, ?_, ?_⟩
  · intro hi_tc med_tc low_tc alert_mbps telem_mbps total_mbps h
    cases hi_tc <;> cases med_tc <;> cases low_tc <;>
      simp_all [Estadisticas.selectQos]
  · intro alert_mbps telem_mbps total_mbps
    rfl
  · intro total_mbps
    refine ⟨?_, ?_, rfl⟩ <;>
      norm_num [Estadisticas.selectQos, Estadisticas.mbpsOfBytes, Estadisticas.INTERVAL]

/-- C3 witness: a tick with only the high tc class measured, and the
message-volume scenario with 125000 alert and 250000 telemetry bytes. -/
theorem C3_qos_arbitration_witness :
    (Estadisticas.selectQos (some 3) none none 0 0 10).qos_src = "tc" ∧
    (Estadisticas.selectQos (some 3) none none 0 0 10).low =
      max ((10 : ℚ) - (some (3 : ℚ)).getD 0 - (none : Option ℚ).getD 0) 0 ∧
    (Estadisticas.selectQos none none none (Estadisticas.mbpsOfBytes 125000)
        (Estadisticas.mbpsOfBytes 250000) 4).hi = 1 :=
  ⟨(C3_qos_arbitration.1 (some 3) none none 0 0 10 (Or.inl rfl)).1,
   (C3_qos_arbitration.1 (some 3) none none 0 0 10 (Or.inl rfl)).2.2.2.1 rfl,
   (C3_qos_arbitration.2.2 4).1⟩

/-- C7 counterexample: the CPU computation of estadisticas.py is not clamped
into the [0, 100] range: a total delta of 10 with an idle delta of 20 yields
-100. -/
theorem C7_cex :
    Estadisticas.cpuPctEst 10 20 = -100 ∧ ¬ (0 ≤ Estadisticas.cpuPctEst 10 20) := by
  constructor
  · norm_num [Estadisticas.cpuPctEst]
  · norm_num [Estadisticas.cpuPctEst]

/-- C7 (amended): cpu_pct of stats_writer.py is clamped and always lies in
[0, 100], with 0.0 on the first reading or a non-positive total delta;
estadisticas.py computes 100 * (1 - idle delta / total delta) without a clamp,
returning 0.0 on a non-positive total delta and landing in [0, 100] whenever
the deltas come from monotone counters (0 ≤ idle delta ≤ total delta). -/
theorem C7_cpu_pct_amended :
    (∀ prev_cpu : Option (ℤ × ℤ), ∀ total idle : ℤ,
        0 ≤ (StatsWriter.cpu_pct_step prev_cpu total idle).1 ∧
        (StatsWriter.cpu_pct_step prev_cpu total idle).1 ≤ 100) ∧
    (∀ total idle : ℤ, (StatsWriter.cpu_pct_step none total idle).1 = 0) ∧
    (∀ pt pidle total idle : ℤ, total - pt ≤ 0 →
        (StatsWriter.cpu_pct_step (some (pt, pidle)) total idle).1 = 0) ∧
    (∀ dtTotal dtIdle : ℤ, dtTotal ≤ 0 → Estadisticas.cpuPctEst dtTotal dtIdle = 0) ∧
    (∀ dtTotal dtIdle : ℤ, 0 < dtTotal → 0 ≤ dtIdle → dtIdle ≤ dtTotal →
        0 ≤ Estadisticas.cpuPctEst dtTotal dtIdle ∧
        Estadisticas.cpuPctEst dtTotal dtIdle ≤ 100) := by
  refine ⟨?_, ?_, ?_, ?_, ?_⟩
  · intro prev_cpu total idle
    match prev_cpu with
    | none => simp [StatsWriter.cpu_pct_step]
    | some (pt, pidle) =>
        by_cases hdt : total - pt ≤ 0
        · simp [StatsWriter.cpu_pct_step, hdt]
        · simp only [StatsWriter.cpu_pct_step, hdt, if_neg, not_false_iff]
          exact ⟨le_max_left _ _, max_le (by norm_num) (min_le_left _ _)⟩
  · intro total idle
    rfl
  · intro pt pidle total idle h
    simp [StatsWriter.cpu_pct_step, h]
  · intro dtTotal dtIdle h
    simp [Estadisticas.cpuPctEst, h]
  · intro dtTotal dtIdle h1 h2 h3
    have hne : ¬ (dtTotal ≤ 0) := not_le.mpr h1
    simp only [Estadisticas.cpuPctEst, if_neg hne]
    have hcast : (0 : ℚ) < (dtTotal : ℚ) := by exact_mod_cast h1
    have hr0 : (0 : ℚ) ≤ (dtIdle : ℚ) / (dtTotal : ℚ) :=
      div_nonneg (by exact_mod_cast h2) hcast.le
    have hr1 : (dtIdle : ℚ) / (dtTotal : ℚ) ≤ 1 :=
      (div_le_one hcast).mpr (by exact_mod_cast h3)
    constructor
    · linarith
    · linarith

/-- C7 witness: the amended statement at concrete readings. -/
theorem C7_cpu_pct_amended_witness :
    (0 ≤ (StatsWriter.cpu_pct_step (some (10, 5)) 30 15).1 ∧
      (StatsWriter.cpu_pct_step (some (10, 5)) 30 15).1 ≤ 100) ∧
    (StatsWriter.cpu_pct_step (some (10, 5)) 10 15).1 = 0 ∧
    Estadisticas.cpuPctEst (-3) 4 = 0 ∧
    (0 ≤ Estadisticas.cpuPctEst 100 50 ∧ Estadisticas.cpuPctEst 100 50 ≤ 100) :=
  ⟨C7_cpu_pct_amended.1 (some (10, 5)) 30 15,
   C7_cpu_pct_amended.2.2.1 10 5 10 15 (by norm_num),
   C7_cpu_pct_amended.2.2.2.1 (-3) 4 (by norm_num),
   C7_cpu_pct_amended.2.2.2.2 100 50 (by norm_num) (by norm_num) (by norm_num)⟩

/-- C8 counterexample: the bytes_status accumulator of estadisticas.py is a
per-window byte counter incremented on message arrival, yet the tick
read-and-reset leaves it untouched: starting from 7 it is still 7 after the
tick, so not all message-volume accumulators are reset to zero. -/
theorem C8_cex :
    (Estadisticas.tickReadReset
        { telemetry := none, alert := none, status := none, ts := none,
          bytes_telem := 3, bytes_alert := 4, bytes_status := 7 }).2.bytes_status = 7 ∧
    (7 : ℕ) ≠ 0 := by
  constructor
  · rfl
  · decide

/-- C8 (amended): each tick of estadisticas.py resets exactly the telemetry and
alert byte accumulators to zero, giving non-overlapping windows for those two
(a tick right after a tick reads zero, and a message of n bytes arriving after
a reset is read as exactly n by the next tick); the status byte accumulator is
never reset. -/
theorem C8_reset_amended :
    ∀ st : Estadisticas.LatestToma1,
      (Estadisticas.tickReadReset st).2.bytes_telem = 0 ∧
      (Estadisticas.tickReadReset st).2.bytes_alert = 0 ∧
      (Estadisticas.tickReadReset st).2.bytes_status = st.bytes_status ∧
      (Estadisticas.tickReadReset (Estadisticas.tickReadReset st).2).1 = (0, 0) ∧
      (∀ payload : String, ∀ nbytes : ℕ, ∀ now : ℚ,
        (Estadisticas.tickReadReset
            (Estadisticas.onMessage (Estadisticas.tickReadReset st).2
              Estadisticas.MsgKind.telem payload nbytes now)).1.1 = nbytes) := by
  intro st
  refine ⟨rfl, rfl, rfl, rfl, ?_⟩
  intro payload nbytes now
  simp [Estadisticas.tickReadReset, Estadisticas.onMessage]

/-- C4: with no backing store file, build_snapshot returns the well-formed
early snapshot: no table views, no derived map, alert count 0 with an empty
series, and no store is created or touched. -/
theorem C4_missing_store_empty_snapshot :
    ∀ max_rows_per_table toma_points : ℕ, ∀ ttl_sec now : ℤ,
      SnapDB.build_snapshot none max_rows_per_table toma_points ttl_sec now =
        ({ now_ts := now, ttl_sec := ttl_sec, pi_latest := none, net_latest := none,
           net_series := none, toma_latest_per_toma := none,
           toma_series_per_toma := none, tomas_by_ttl := none,
           alerts_count_120s := 0, alerts_series := [] }, none) := by
  intro _ _ _ _
  rfl

/-- C5: no row carrying a reserved identifier is ever produced by the ingest
callbacks, whatever the topic and payload: every inserted row stores the
normalized identifier (payload field over topic segment, stripped and
lowercased) and that identifier is outside the reserved set; in particular a
message on the display telemetry topic inserts nothing. -/
theorem C5_reserved_filter :
    (∀ topic : String, ∀ p : Ingest.Parsed, ∀ ts : ℤ, ∀ r : Ingest.TomaSample,
        Ingest.processTelem topic p ts = some r → r.toma ∉ Ingest.RESERVED_IDS) ∧
    (∀ topic : String, ∀ p : Ingest.Parsed, ∀ ts : ℤ, ∀ r : Ingest.AlertSample,
        Ingest.processAlert topic p ts = some r → r.toma ∉ Ingest.RESERVED_IDS) ∧
    (∀ p : Ingest.Parsed, ∀ ts : ℤ,
        Ingest.processTelem "safegrid/display/telemetry" p ts = none) := by
  refine ⟨?_, ?_, ?_⟩
  · intro topic p ts r h
    cases p with
    | malformed => simp only [Ingest.processTelem] at h; split_ifs at h
    | nonDict => simp only [Ingest.processTelem] at h; split_ifs at h
    | dict doc =>
        simp only [Ingest.processTelem] at h
        split_ifs at h with h1 h2 h3
        simp only [Option.some.injEq] at h
        rw [← h]
        simpa [Ingest.mkTelemRow] using h3
  · intro topic p ts r h
    cases p with
    | malformed => simp only [Ingest.processAlert] at h; split_ifs at h
    | nonDict => simp only [Ingest.processAlert] at h; split_ifs at h
    | dict doc =>
        simp only [Ingest.processAlert] at h
        split_ifs at h with h1 h2
        simp only [Option.some.injEq] at h
        rw [← h]
        simpa [Ingest.mkAlertRow] using h2
  · intro p ts
    rfl

/-- C5 witness: a toma1 telemetry and alert message is inserted with a
non-reserved normalized identifier, and a display-topic message inserts
nothing. -/
theorem C5_reserved_filter_witness :
    (Ingest.mkTelemRow 3 "toma1" Ingest.emptyDoc).toma ∉ Ingest.RESERVED_IDS ∧
    (Ingest.mkAlertRow 4 "toma1" Ingest.emptyDoc).toma ∉ Ingest.RESERVED_IDS ∧
    Ingest.processTelem "safegrid/display/telemetry" Ingest.Parsed.malformed 0 = none :=
  ⟨C5_reserved_filter.1 "safegrid/toma1/telemetry" (Ingest.Parsed.dict Ingest.emptyDoc) 3
      (Ingest.mkTelemRow 3 "toma1" Ingest.emptyDoc) (by decide),
   C5_reserved_filter.2.1 "safegrid/toma1/alert" (Ingest.Parsed.dict Ingest.emptyDoc) 4
      (Ingest.mkAlertRow 4 "toma1" Ingest.emptyDoc) (by decide),
   C5_reserved_filter.2.2 Ingest.Parsed.malformed 0⟩

/-- C9 counterexample: a parseable dict payload whose amperaje field holds
non-numeric text is not discarded by on_telem: the row is inserted, with the
non-coercible field stored as NULL. -/
theorem C9_cex :
    Ingest.safe_float (Ingest.FVal.fstrBad "abc") = none ∧
    Ingest.processTelem "safegrid/toma1/telemetry" (Ingest.Parsed.dict Ingest.badAmpDoc) 5 =
      some (Ingest.mkTelemRow 5 "toma1" Ingest.badAmpDoc) ∧
    (Ingest.mkTelemRow 5 "toma1" Ingest.badAmpDoc).amperaje = none := by
  refine ⟨rfl, by decide, rfl⟩

/-- C9 (amended): an unparseable or non-dict payload is discarded with no row
and no exception, for telemetry and alert alike; a dict payload that survives
the identifier filter is inserted even when numeric fields hold non-numeric
content — those fields are coerced to NULL by safe_float and safe_int rather
than the message being dropped. -/
theorem C9_malformed_amended :
    (∀ topic : String, ∀ ts : ℤ,
        Ingest.processTelem topic Ingest.Parsed.malformed ts = none ∧
        Ingest.processTelem topic Ingest.Parsed.nonDict ts = none ∧
        Ingest.processAlert topic Ingest.Parsed.malformed ts = none ∧
        Ingest.processAlert topic Ingest.Parsed.nonDict ts = none) ∧
    (∀ topic : String, ∀ doc : Ingest.Doc, ∀ ts : ℤ, ∀ r : Ingest.TomaSample,
        Ingest.processTelem topic (Ingest.Parsed.dict doc) ts = some r →
          r.amperaje = Ingest.safe_float doc.amperaje ∧
          r.potencia_w = Ingest.safe_float doc.potencia_w ∧
          r.seq = Ingest.safe_int doc.seq ∧
          r.rssi = Ingest.safe_int doc.rssi) ∧
    (∀ s : String,
        Ingest.safe_float (Ingest.FVal.fstrBad s) = none ∧
        Ingest.safe_int (Ingest.FVal.fstrBad s) = none) := by
  refine ⟨?_, ?_, ?_⟩
  · intro topic ts
    refine ⟨?_, ?_, ?_, ?_⟩ <;>
      (first
        | (simp only [Ingest.processTelem]; split_ifs <;> rfl)
        | (simp only [Ingest.processAlert]; split_ifs <;> rfl))
  · intro topic doc ts r h
    simp only [Ingest.processTelem] at h
    split_ifs at h
    simp only [Option.some.injEq] at h
    rw [← h]
    exact ⟨rfl, rfl, rfl, rfl⟩
  · intro s
    exact ⟨rfl, rfl⟩

/-- C9 witness: the amended statement at concrete messages. -/
theorem C9_malformed_amended_witness :
    Ingest.processTelem "safegrid/toma1/telemetry" Ingest.Parsed.malformed 9 = none ∧
    ((Ingest.mkTelemRow 5 "toma1" Ingest.badAmpDoc).amperaje =
        Ingest.safe_float Ingest.badAmpDoc.amperaje ∧
      (Ingest.mkTelemRow 5 "toma1" Ingest.badAmpDoc).potencia_w =
        Ingest.safe_float Ingest.badAmpDoc.potencia_w ∧
      (Ingest.mkTelemRow 5 "toma1" Ingest.badAmpDoc).seq =
        Ingest.safe_int Ingest.badAmpDoc.seq ∧
      (Ingest.mkTelemRow 5 "toma1" Ingest.badAmpDoc).rssi =
        Ingest.safe_int Ingest.badAmpDoc.rssi) ∧
    (Ingest.safe_float (Ingest.FVal.fstrBad "xy") = none ∧
      Ingest.safe_int (Ingest.FVal.fstrBad "xy") = none) :=
  ⟨(C9_malformed_amended.1 "safegrid/toma1/telemetry" 9).1,
   C9_malformed_amended.2.1 "safegrid/toma1/telemetry" Ingest.badAmpDoc 5
     (Ingest.mkTelemRow 5 "toma1" Ingest.badAmpDoc) (by decide),
   C9_malformed_amended.2.2 "xy"⟩

theorem addIdx_mem_self (n : String) (l : List String) : n ∈ addIdx n l := by
  unfold addIdx
  split_ifs with h
  · exact h
  · simp

theorem addIdx_mem_of (m n : String) (l : List String) (h : m ∈ l) : m ∈ addIdx n l := by
  unfold addIdx
  split_ifs
  · exact h
  · simp [h]

theorem addIdx_of_mem (n : String) (l : List String) (h : n ∈ l) : addIdx n l = l := by
  simp [addIdx, h]

theorem foldl_addColumn_cols (l : List (String × String)) (t : Ingest.Tbl) :
    (l.foldl Ingest.addColumn t).cols = t.cols ++ l := by
  induction l generalizing t with
  | nil => simp
  | cons c cs ih =>
      simp [List.foldl_cons, ih, Ingest.addColumn, List.append_assoc]

theorem foldl_addColumn_rows (l : List (String × String)) (t : Ingest.Tbl) :
    (l.foldl Ingest.addColumn t).rows =
      t.rows.map (fun r => r ++ List.replicate l.length Ingest.Val.null) := by
  induction l generalizing t with
  | nil => simp
  | cons c cs ih =>
      simp only [List.foldl_cons, ih, Ingest.addColumn, List.map_map, List.length_cons]
      congr 1
      funext r
      simp [List.append_assoc, List.replicate_succ]

theorem addMissingCols_cols (t : Ingest.Tbl) (need : List (String × String)) :
    Ingest.colNames (Ingest.addMissingCols t need) =
      Ingest.colNames t ++
        ((need.filter (fun c => c.1 ∉ Ingest.colNames t)).map Prod.fst) := by
  unfold Ingest.addMissingCols Ingest.colNames
  rw [foldl_addColumn_cols, List.map_append]

theorem addMissingCols_rows (t : Ingest.Tbl) (need : List (String × String)) :
    (Ingest.addMissingCols t need).rows =
      t.rows.map (fun r =>
        r ++ List.replicate ((need.filter (fun c => c.1 ∉ Ingest.colNames t)).length)
          Ingest.Val.null) :=
  foldl_addColumn_rows _ t

theorem mem_colNames_addMissingCols (t : Ingest.Tbl) (need : List (String × String))
    (c : String × String) (hc : c ∈ need) :
    c.1 ∈ Ingest.colNames (Ingest.addMissingCols t need) := by
  rw [addMissingCols_cols]
  by_cases h : c.1 ∈ Ingest.colNames t
  · exact List.mem_append_left _ h
  · refine List.mem_append_right _ ?_
    exact List.mem_map.mpr ⟨c, List.mem_filter.mpr ⟨hc, by simpa using h⟩, rfl⟩

theorem addMissingCols_of_present (t : Ingest.Tbl) (need : List (String × String))
    (h : ∀ c ∈ need, c.1 ∈ Ingest.colNames t) :
    Ingest.addMissingCols t need = t := by
  unfold Ingest.addMissingCols
  have hnil : need.filter (fun c => c.1 ∉ Ingest.colNames t) = [] := by
    rw [List.filter_eq_nil_iff]
    intro c hc
    simpa using h c hc
  rw [hnil]
  rfl

theorem addMissingCols_nodup (t : Ingest.Tbl) (need : List (String × String))
    (hn : (Ingest.colNames t).Nodup) (hneed : (need.map Prod.fst).Nodup) :
    (Ingest.colNames (Ingest.addMissingCols t need)).Nodup := by
  rw [addMissingCols_cols]
  refine List.Nodup.append hn ?_ ?_
  · exact hneed.sublist ((List.filter_sublist need).map Prod.fst)
  · rw [List.disjoint_right]
    intro a ha hmem
    obtain ⟨c, hcf, rfl⟩ := List.mem_map.mp ha
    have := (List.mem_filter.mp hcf).2
    simp at this
    exact this hmem

theorem ensure_schema_parts (s : Ingest.Store) :
    ∃ t1 t2 : Ingest.Tbl,
      Ingest.ensure_schema s =
        ⟨some t1, some t2, addIdx "idx_alert_ts" (addIdx "idx_toma_ts" s.indexes)⟩ ∧
      (∀ c ∈ Ingest.needToma, c.1 ∈ Ingest.colNames t1) ∧
      (∀ c ∈ Ingest.needAlert, c.1 ∈ Ingest.colNames t2) := by
  obtain ⟨tm, al, idx⟩ := s
  cases tm with
  | none =>
      cases al with
      | none =>
          refine ⟨Ingest.addMissingCols ⟨Ingest.tomaCreateCols, []⟩ Ingest.needToma,
                  Ingest.addMissingCols ⟨Ingest.alertCreateCols, []⟩ Ingest.needAlert, ?_,
                  fun c hc => mem_colNames_addMissingCols _ _ c hc,
                  fun c hc => mem_colNames_addMissingCols _ _ c hc⟩
          simp [Ingest.ensure_schema, Ingest.createTomaIfAbsent, Ingest.createAlertIfAbsent]
      | some a =>
          refine ⟨Ingest.addMissingCols ⟨Ingest.tomaCreateCols, []⟩ Ingest.needToma,
                  Ingest.addMissingCols a Ingest.needAlert, ?_,
                  fun c hc => mem_colNames_addMissingCols _ _ c hc,
                  fun c hc => mem_colNames_addMissingCols _ _ c hc⟩
          simp [Ingest.ensure_schema, Ingest.createTomaIfAbsent, Ingest.createAlertIfAbsent]
  | some t =>
      cases al with
      | none =>
          refine ⟨Ingest.addMissingCols t Ingest.needToma,
                  Ingest.addMissingCols ⟨Ingest.alertCreateCols, []⟩ Ingest.needAlert, ?_,
                  fun c hc => mem_colNames_addMissingCols _ _ c hc,
                  fun c hc => mem_colNames_addMissingCols _ _ c hc⟩
          simp [Ingest.ensure_schema, Ingest.createTomaIfAbsent, Ingest.createAlertIfAbsent]
      | some a =>
          refine ⟨Ingest.addMissingCols t Ingest.needToma,
                  Ingest.addMissingCols a Ingest.needAlert, ?_,
                  fun c hc => mem_colNames_addMissingCols _ _ c hc,
                  fun c hc => mem_colNames_addMissingCols _ _ c hc⟩
          simp [Ingest.ensure_schema, Ingest.createTomaIfAbsent, Ingest.createAlertIfAbsent]

theorem ensure_schema_idem (s : Ingest.Store) :
    Ingest.ensure_schema (Ingest.ensure_schema s) = Ingest.ensure_schema s := by
  obtain ⟨t1, t2, heq, h1, h2⟩ := ensure_schema_parts s
  rw [heq]
  have m1 : "idx_toma_ts" ∈ addIdx "idx_alert_ts" (addIdx "idx_toma_ts" s.indexes) :=
    addIdx_mem_of _ _ _ (addIdx_mem_self _ _)
  have m2 : "idx_alert_ts" ∈ addIdx "idx_alert_ts" (addIdx "idx_toma_ts" s.indexes) :=
    addIdx_mem_self _ _
  simp [Ingest.ensure_schema, Ingest.createTomaIfAbsent, Ingest.createAlertIfAbsent,
    addMissingCols_of_present _ _ h1, addMissingCols_of_present _ _ h2,
    addIdx_of_mem _ _ m1, addIdx_of_mem _ _ m2]

theorem snap_ensure_provisioned (s : SnapDB.Store) :
    SnapDB.provisioned (SnapDB.ensure_schema s) := by
  obtain ⟨a, b, c, d, idx⟩ := s
  refine ⟨rfl, rfl, rfl, rfl, ?_, ?_, ?_, ?_, ?_⟩ <;>
    simp only [SnapDB.ensure_schema] <;>
    first
      | exact addIdx_mem_self _ _
      | exact addIdx_mem_of _ _ _ (addIdx_mem_self _ _)
      | exact addIdx_mem_of _ _ _ (addIdx_mem_of _ _ _ (addIdx_mem_self _ _))
      | exact addIdx_mem_of _ _ _ (addIdx_mem_of _ _ _ (addIdx_mem_of _ _ _ (addIdx_mem_self _ _)))
      | exact addIdx_mem_of _ _ _ (addIdx_mem_of _ _ _ (addIdx_mem_of _ _ _ (addIdx_mem_of _ _ _ (addIdx_mem_self _ _))))

theorem snap_ensure_of_provisioned (s : SnapDB.Store) (h : SnapDB.provisioned s) :
    SnapDB.ensure_schema s = s := by
  obtain ⟨hT, hA, hP, hN, h1, h2, h3, h4, h5⟩ := h
  obtain ⟨tT, htT⟩ := Option.isSome_iff_exists.mp hT
  obtain ⟨tA, htA⟩ := Option.isSome_iff_exists.mp hA
  obtain ⟨tP, htP⟩ := Option.isSome_iff_exists.mp hP
  obtain ⟨tN, htN⟩ := Option.isSome_iff_exists.mp hN
  obtain ⟨a, b, c, d, idx⟩ := s
  simp only at htT htA htP htN h1 h2 h3 h4 h5
  subst htT htA htP htN
  simp [SnapDB.ensure_schema, addIdx_of_mem _ _ h1, addIdx_of_mem _ _ h2,
    addIdx_of_mem _ _ h3, addIdx_of_mem _ _ h4, addIdx_of_mem _ _ h5]

theorem snap_ensure_idem (s : SnapDB.Store) :
    SnapDB.ensure_schema (SnapDB.ensure_schema s) = SnapDB.ensure_schema s :=
  snap_ensure_of_provisioned _ (snap_ensure_provisioned s)

/-- C6: both ensure_schema routines are idempotent and additive: a second run
changes nothing; on an existing table the migration only appends missing
columns at the end, each stored row is the original row extended with NULL
cells (no rows lost, no cells rewritten), every existing column survives, and
no duplicate column is created. -/
theorem C6_ensure_schema_idempotent_additive :
    (∀ s : Ingest.Store,
        Ingest.ensure_schema (Ingest.ensure_schema s) = Ingest.ensure_schema s) ∧
    (∀ s : Ingest.Store, ∀ t : Ingest.Tbl, s.toma_samples = some t →
        ∃ t2 : Ingest.Tbl, ∃ k : ℕ,
          (Ingest.ensure_schema s).toma_samples = some t2 ∧
          t2.rows = t.rows.map (fun r => r ++ List.replicate k Ingest.Val.null) ∧
          (∀ c, c ∈ Ingest.colNames t → c ∈ Ingest.colNames t2) ∧
          ((Ingest.colNames t).Nodup → (Ingest.colNames t2).Nodup)) ∧
    (∀ s : Ingest.Store, ∀ t : Ingest.Tbl, s.alert_samples = some t →
        ∃ t2 : Ingest.Tbl, ∃ k : ℕ,
          (Ingest.ensure_schema s).alert_samples = some t2 ∧
          t2.rows = t.rows.map (fun r => r ++ List.replicate k Ingest.Val.null) ∧
          (∀ c, c ∈ Ingest.colNames t → c ∈ Ingest.colNames t2) ∧
          ((Ingest.colNames t).Nodup → (Ingest.colNames t2).Nodup)) ∧
    (∀ s : SnapDB.Store,
        SnapDB.ensure_schema (SnapDB.ensure_schema s) = SnapDB.ensure_schema s) := by
  refine ⟨ensure_schema_idem, ?_, ?_, snap_ensure_idem⟩
  · intro s t h
    obtain ⟨tm, al, idx⟩ := s
    simp only at h
    subst h
    cases al <;>
      exact ⟨Ingest.addMissingCols t Ingest.needToma, _,
        by simp [Ingest.ensure_schema, Ingest.createTomaIfAbsent, Ingest.createAlertIfAbsent],
        addMissingCols_rows t Ingest.needToma,
        fun c hc => by rw [addMissingCols_cols]; exact List.mem_append_left _ hc,
        fun hn => addMissingCols_nodup t Ingest.needToma hn (by decide)⟩
  · intro s t h
    obtain ⟨tm, al, idx⟩ := s
    simp only at h
    subst h
    cases tm <;>
      exact ⟨Ingest.addMissingCols t Ingest.needAlert, _,
        by simp [Ingest.ensure_schema, Ingest.createTomaIfAbsent, Ingest.createAlertIfAbsent],
        addMissingCols_rows t Ingest.needAlert,
        fun c hc => by rw [addMissingCols_cols]; exact List.mem_append_left _ hc,
        fun hn => addMissingCols_nodup t Ingest.needAlert hn (by decide)⟩

/-- C6 witness: the schema routines at a concrete one-row legacy store. -/
theorem C6_ensure_schema_idempotent_additive_witness :
    Ingest.ensure_schema
        (Ingest.ensure_schema ⟨some ⟨[("ts", "INTEGER")], [[Ingest.Val.intv 1]]⟩, none, []⟩) =
      Ingest.ensure_schema ⟨some ⟨[("ts", "INTEGER")], [[Ingest.Val.intv 1]]⟩, none, []⟩ ∧
    (∃ t2 : Ingest.Tbl, ∃ k : ℕ,
        (Ingest.ensure_schema
            ⟨some ⟨[("ts", "INTEGER")], [[Ingest.Val.intv 1]]⟩, none, []⟩).toma_samples = some t2 ∧
        t2.rows = [[Ingest.Val.intv 1]].map (fun r => r ++ List.replicate k Ingest.Val.null) ∧
        (∀ c, c ∈ Ingest.colNames ⟨[("ts", "INTEGER")], [[Ingest.Val.intv 1]]⟩ →
          c ∈ Ingest.colNames t2) ∧
        ((Ingest.colNames ⟨[("ts", "INTEGER")], [[Ingest.Val.intv 1]]⟩).Nodup →
          (Ingest.colNames t2).Nodup)) ∧
    SnapDB.ensure_schema (SnapDB.ensure_schema SnapDB.emptyStore) =
      SnapDB.ensure_schema SnapDB.emptyStore :=
  ⟨C6_ensure_schema_idempotent_additive.1 ⟨some ⟨[("ts", "INTEGER")], [[Ingest.Val.intv 1]]⟩, none, []⟩,
   C6_ensure_schema_idempotent_additive.2.1 ⟨some ⟨[("ts", "INTEGER")], [[Ingest.Val.intv 1]]⟩, none, []⟩
     ⟨[("ts", "INTEGER")], [[Ingest.Val.intv 1]]⟩ rfl,
   C6_ensure_schema_idempotent_additive.2.2.2 SnapDB.emptyStore⟩

/-- C10: build_snapshot on an existing store is not read-only: its store effect
is exactly the ensure_schema run, which always leaves a fully provisioned
store, so any missing table or index is created during the snapshot read; the
store comes back unchanged exactly when it was already fully provisioned, and
on the empty store the call manufactures the toma_samples table out of
nothing. -/
theorem C10_build_snapshot_schema_effect :
    (∀ s : SnapDB.Store, ∀ maxR pts : ℕ, ∀ ttl now : ℤ,
        (SnapDB.build_snapshot (some s) maxR pts ttl now).2 =
          some (SnapDB.ensure_schema s)) ∧
    (∀ s : SnapDB.Store, SnapDB.provisioned (SnapDB.ensure_schema s)) ∧
    (∀ s : SnapDB.Store, ∀ maxR pts : ℕ, ∀ ttl now : ℤ,
        ((SnapDB.build_snapshot (some s) maxR pts ttl now).2 = some s ↔
          SnapDB.provisioned s)) ∧
    ((SnapDB.build_snapshot (some SnapDB.emptyStore) 60 60 10 0).2 =
        some (SnapDB.ensure_schema SnapDB.emptyStore) ∧
      (SnapDB.ensure_schema SnapDB.emptyStore).toma_samples = some [] ∧
      SnapDB.emptyStore.toma_samples = none) := by
  refine ⟨fun s maxR pts ttl now => rfl, snap_ensure_provisioned, ?_, rfl, rfl, rfl⟩
  intro s maxR pts ttl now
  constructor
  · intro h
    have h2 : SnapDB.ensure_schema s = s := by
      have := (Option.some.inj h)
      exact this
    rw [← h2]
    exact snap_ensure_provisioned s
  · intro h
    have h2 : SnapDB.ensure_schema s = s := snap_ensure_of_provisioned s h
    show some (SnapDB.ensure_schema s) = some s
    rw [h2]

theorem latestRow_none_iff (rows : List SnapDB.TomaRow) (tn : String) :
    SnapDB.latestRow rows tn = none ↔ ∀ r ∈ rows, r.toma ≠ tn := by
  induction rows with
  | nil => simp [SnapDB.latestRow]
  | cons x xs ih =>
      cases hrec : SnapDB.latestRow xs tn with
      | none =>
          simp only [SnapDB.latestRow, hrec]
          constructor
          · intro h r hr
            rcases List.mem_cons.mp hr with rfl | hmem
            · intro hx
              rw [if_pos hx] at h
              exact Option.noConfusion h
            · exact (ih.mp hrec) r hmem
          · intro h
            rw [if_neg (h x (List.mem_cons_self x xs))]
      | some b =>
          simp only [SnapDB.latestRow, hrec]
          constructor
          · intro h
            split_ifs at h
          · intro h
            have hnone : SnapDB.latestRow xs tn = none :=
              ih.mpr (fun r hr => h r (List.mem_cons_of_mem x hr))
            rw [hrec] at hnone
            exact Option.noConfusion hnone

theorem latestRow_mem (rows : List SnapDB.TomaRow) (tn : String) (r : SnapDB.TomaRow)
    (h : SnapDB.latestRow rows tn = some r) : r ∈ rows ∧ r.toma = tn := by
  induction rows generalizing r with
  | nil => simp [SnapDB.latestRow] at h
  | cons x xs ih =>
      cases hrec : SnapDB.latestRow xs tn with
      | none =>
          simp only [SnapDB.latestRow, hrec] at h
          by_cases hx : x.toma = tn
          · rw [if_pos hx] at h
            have he := Option.some.inj h
            exact ⟨by rw [← he]; exact List.mem_cons_self x xs, by rw [← he]; exact hx⟩
          · rw [if_neg hx] at h
            exact Option.noConfusion h
      | some b =>
          simp only [SnapDB.latestRow, hrec] at h
          obtain ⟨hbm, hbt⟩ := ih b hrec
          by_cases hx : x.toma = tn
          · rw [if_pos hx] at h
            by_cases hts : b.ts < x.ts
            · rw [if_pos hts] at h
              have he := Option.some.inj h
              exact ⟨by rw [← he]; exact List.mem_cons_self x xs, by rw [← he]; exact hx⟩
            · rw [if_neg hts] at h
              have he := Option.some.inj h
              exact ⟨by rw [← he]; exact List.mem_cons_of_mem x hbm, by rw [← he]; exact hbt⟩
          · rw [if_neg hx] at h
            have he := Option.some.inj h
            exact ⟨by rw [← he]; exact List.mem_cons_of_mem x hbm, by rw [← he]; exact hbt⟩

theorem latestRow_max (rows : List SnapDB.TomaRow) (tn : String) (r : SnapDB.TomaRow)
    (h : SnapDB.latestRow rows tn = some r) :
    ∀ b ∈ rows, b.toma = tn → b.ts ≤ r.ts := by
  induction rows generalizing r with
  | nil => simp
  | cons x xs ih =>
      intro b hb hbt
      cases hrec : SnapDB.latestRow xs tn with
      | none =>
          simp only [SnapDB.latestRow, hrec] at h
          rcases List.mem_cons.mp hb with rfl | hmem
          · rw [if_pos hbt] at h
            rw [← Option.some.inj h]
          · exact absurd hbt ((latestRow_none_iff xs tn).mp hrec b hmem)
      | some bb =>
          simp only [SnapDB.latestRow, hrec] at h
          rcases List.mem_cons.mp hb with rfl | hmem
          · rw [if_pos hbt] at h
            by_cases hts : bb.ts < b.ts
            · rw [if_pos hts] at h
              rw [← Option.some.inj h]
            · rw [if_neg hts] at h
              rw [← Option.some.inj h]
              exact le_of_not_lt hts
          · have hle := ih bb hrec b hmem hbt
            by_cases hx : x.toma = tn
            · rw [if_pos hx] at h
              by_cases hts : bb.ts < x.ts
              · rw [if_pos hts] at h
                rw [← Option.some.inj h]
                exact le_trans hle (le_of_lt hts)
              · rw [if_neg hts] at h
                rw [← Option.some.inj h]
                exact hle
            · rw [if_neg hx] at h
              rw [← Option.some.inj h]
              exact hle

theorem mem_toma_names (rows : List SnapDB.TomaRow) (tn : String) :
    tn ∈ SnapDB.toma_names rows ↔ tn ≠ "" ∧ ∃ r ∈ rows, r.toma = tn := by
  unfold SnapDB.toma_names
  rw [mem_sortBy, List.mem_filter, List.mem_dedup, List.mem_map]
  constructor
  · rintro ⟨⟨r, hr, rfl⟩, hne⟩
    exact ⟨by simpa using hne, r, hr, rfl⟩
  · rintro ⟨hne, r, hr, rfl⟩
    exact ⟨⟨r, hr, rfl⟩, by simpa using hne⟩

theorem toma_names_nodup (rows : List SnapDB.TomaRow) :
    (SnapDB.toma_names rows).Nodup := by
  unfold SnapDB.toma_names
  exact nodup_sortBy _ _ (List.Nodup.filter _ (List.nodup_dedup _))

theorem lookup_filterMap_none {β : Type} (names : List String) (f : String → Option β)
    (tn : String) (h : tn ∉ names) :
    (names.filterMap (fun n => (f n).map (fun b => (n, b)))).lookup tn = none := by
  induction names with
  | nil => rfl
  | cons n ns ih =>
      have hne : tn ≠ n := by
        intro e
        exact h (e ▸ List.mem_cons_self n ns)
      have hnotin : tn ∉ ns := fun hh => h (List.mem_cons_of_mem n hh)
      simp only [List.filterMap_cons]
      cases hf : f n with
      | none => exact ih hnotin
      | some b =>
          have hbeq : (tn == n) = false := beq_eq_false_iff_ne.mpr hne
          simp [List.lookup, hbeq, ih hnotin]

theorem lookup_filterMap_mem {β : Type} (names : List String) (f : String → Option β)
    (tn : String) (hnd : names.Nodup) (hmem : tn ∈ names) :
    (names.filterMap (fun n => (f n).map (fun b => (n, b)))).lookup tn = f tn := by
  induction names with
  | nil => simp at hmem
  | cons n ns ih =>
      simp only [List.filterMap_cons]
      rcases List.mem_cons.mp hmem with rfl | hmem2
      · have hout : tn ∉ ns := (List.nodup_cons.mp hnd).1
        cases hf : f tn with
        | none => simpa using lookup_filterMap_none ns f tn hout
        | some b => simp [List.lookup]
      · have hne : tn ≠ n := by
          rintro rfl
          exact (List.nodup_cons.mp hnd).1 hmem2
        have hnd2 := (List.nodup_cons.mp hnd).2
        cases hf : f n with
        | none => exact ih hnd2 hmem2
        | some b =>
            simp only [List.lookup, beq_eq_false_iff_ne.mpr hne]
            exact ih hnd2 hmem2

theorem tomas_by_ttl_of_eq (rows : List SnapDB.TomaRow) (now ttl : ℤ) :
    SnapDB.tomas_by_ttl_of rows now ttl =
      (SnapDB.toma_names rows).filterMap
        (fun n => ((SnapDB.latestRow rows n).map (SnapDB.mkLiveness now ttl)).map
          (fun b => (n, b))) := by
  unfold SnapDB.tomas_by_ttl_of
  congr 1
  funext n
  rw [Option.map_map]
  rfl

theorem build_tomas_by_ttl (s : SnapDB.Store) (rows : List SnapDB.TomaRow)
    (maxR pts : ℕ) (ttl now : ℤ) (h : s.toma_samples = some rows) :
    (SnapDB.build_snapshot (some s) maxR pts ttl now).1.tomas_by_ttl =
      some (SnapDB.tomas_by_ttl_of rows now ttl) := by
  have hrows : (SnapDB.ensure_schema s).toma_samples = some rows := by
    obtain ⟨a, b, c, d, idx⟩ := s
    simp only at h
    subst h
    rfl
  simp only [SnapDB.build_snapshot, hrows, Option.getD_some]
  rw [List.map_filterMap]
  unfold SnapDB.tomas_by_ttl_of
  have hfun : (fun x => Option.map (fun p => (p.1, SnapDB.mkLiveness now ttl p.2))
        (Option.map (fun r => (x, r)) (SnapDB.latestRow rows x))) =
      (fun tn => Option.map (fun r => (tn, SnapDB.mkLiveness now ttl r))
        (SnapDB.latestRow rows tn)) := by
    funext n
    rw [Option.map_map]
    rfl
  rw [hfun]

/-- C1 (amended): the derived tomas_by_ttl map of build_snapshot covers exactly
the outlets with a nonempty identifier and at least one sample.  For such an
outlet whose latest (maximal-timestamp) sample has a nonzero timestamp the
entry reports age_sec = now - last_ts and online exactly when age_sec is
within the TTL; an outlet with zero samples, or with an empty identifier, is
simply absent from the map (no entry and no error) rather than being reported
offline with an infinite age; a latest timestamp of exactly 0 is reported with
the 10^9 sentinel age instead of now - 0. -/
theorem C1_liveness_amended :
    ∀ (s : SnapDB.Store) (rows : List SnapDB.TomaRow) (maxR pts : ℕ) (ttl now : ℤ)
      (tn : String),
      s.toma_samples = some rows →
      ((SnapDB.build_snapshot (some s) maxR pts ttl now).1.tomas_by_ttl =
        some (SnapDB.tomas_by_ttl_of rows now ttl)) ∧
      (∀ r : SnapDB.TomaRow, SnapDB.latestRow rows tn = some r → tn ≠ "" → r.ts ≠ 0 →
          (SnapDB.tomas_by_ttl_of rows now ttl).lookup tn =
            some (SnapDB.mkLiveness now ttl r) ∧
          (SnapDB.mkLiveness now ttl r).age_sec = now - r.ts ∧
          ((SnapDB.mkLiveness now ttl r).online = true ↔ now - r.ts ≤ ttl) ∧
          (∀ b ∈ rows, b.toma = tn → b.ts ≤ r.ts)) ∧
      ((∀ r ∈ rows, r.toma ≠ tn) →
          (SnapDB.tomas_by_ttl_of rows now ttl).lookup tn = none) ∧
      (tn = "" → (SnapDB.tomas_by_ttl_of rows now ttl).lookup tn = none) := by
  intro s rows maxR pts ttl now tn h
  refine ⟨build_tomas_by_ttl s rows maxR pts ttl now h, ?_, ?_, ?_⟩
  · intro r hr hne hts
    obtain ⟨hmem, htoma⟩ := latestRow_mem rows tn r hr
    have hnames : tn ∈ SnapDB.toma_names rows :=
      (mem_toma_names rows tn).mpr ⟨hne, r, hmem, htoma⟩
    refine ⟨?_, ?_, ?_, latestRow_max rows tn r hr⟩
    · rw [tomas_by_ttl_of_eq,
        lookup_filterMap_mem _ _ _ (toma_names_nodup rows) hnames, hr]
      rfl
    · simp [SnapDB.mkLiveness, hts]
    · simp [SnapDB.mkLiveness, hts]
  · intro hall
    rw [tomas_by_ttl_of_eq]
    by_cases hmem : tn ∈ SnapDB.toma_names rows
    · rw [lookup_filterMap_mem _ _ _ (toma_names_nodup rows) hmem,
        (latestRow_none_iff rows tn).mpr hall]
      rfl
    · exact lookup_filterMap_none _ _ _ hmem
  · intro h0
    rw [tomas_by_ttl_of_eq]
    refine lookup_filterMap_none _ _ _ ?_
    intro hmem
    exact ((mem_toma_names rows tn).mp hmem).1 h0

/-- C1 witness: a store holding one toma1 sample at ts 5 read at now 7 with
TTL 10: the derived entry reports age 2 and online. -/
theorem C1_liveness_amended_witness :
    ((SnapDB.build_snapshot
        (some ⟨some [⟨5, "toma1", none, none, none, none, none, none⟩],
          some [], some [], some [], []⟩) 60 60 10 7).1.tomas_by_ttl =
      some (SnapDB.tomas_by_ttl_of [⟨5, "toma1", none, none, none, none, none, none⟩] 7 10)) ∧
    ((SnapDB.tomas_by_ttl_of [⟨5, "toma1", none, none, none, none, none, none⟩] 7 10).lookup
        "toma1" =
      some (SnapDB.mkLiveness 7 10 ⟨5, "toma1", none, none, none, none, none, none⟩) ∧
      (SnapDB.mkLiveness 7 10 ⟨5, "toma1", none, none, none, none, none, none⟩).age_sec =
        7 - 5 ∧
      ((SnapDB.mkLiveness 7 10 ⟨5, "toma1", none, none, none, none, none, none⟩).online =
          true ↔ (7 : ℤ) - 5 ≤ 10) ∧
      (∀ b ∈ [(⟨5, "toma1", none, none, none, none, none, none⟩ : SnapDB.TomaRow)],
        b.toma = "toma1" → b.ts ≤ (5 : ℤ))) :=
  have h := C1_liveness_amended
    ⟨some [⟨5, "toma1", none, none, none, none, none, none⟩], some [], some [], some [], []⟩
    [⟨5, "toma1", none, none, none, none, none, none⟩] 60 60 10 7 "toma1" rfl
  ⟨h.1, h.2.1 ⟨5, "toma1", none, none, none, none, none, none⟩ (by decide) (by decide) (by decide)⟩

/-- C1 counterexample: a persisted sample with timestamp 0 read at now 5 with
TTL 10.  The claim demands age_seconds = now - last_timestamp = 5 and online
(5 is within the TTL); the code reports the sentinel age 10^9 and offline.
Also, an outlet with zero samples has no entry at all in the derived map, so
it is not reported as online = false with an infinite age. -/
theorem C1_cex :
    (SnapDB.build_snapshot
        (some ⟨some [⟨0, "toma1", none, none, none, none, none, none⟩],
          some [], some [], some [], []⟩) 60 60 10 5).1.tomas_by_ttl =
      some [("toma1", ⟨0, 1000000000, false, none, none, none, none⟩)] ∧
    (1000000000 : ℤ) ≠ 5 - 0 ∧
    ((5 : ℤ) - 0 ≤ 10) ∧
    List.lookup "ghost"
      [("toma1", (⟨0, 1000000000, false, none, none, none, none⟩ : SnapDB.Liveness))] = none := by
  refine ⟨by decide, by decide, by decide, by decide⟩
